import Mathlib

/-!
Shallow embedding of the Whatsub users microservice (COMS4153-WhatSub /
Whatsub-users-microservice) for checking its natural-language specification.

The persistent store is the `users` table of `src/app/services/orm_models.py`,
modelled as a list of rows together with a counter that supplies the fresh
ids produced by `uuid.uuid4()` (ids are opaque strings in the source; they
are modelled as opaque naturals drawn from the counter, with freshness of a
generated id stated as a hypothesis where it matters).  The commit-time
uniqueness constraints of the table (`email` and `google_id` are UNIQUE
columns) are modelled as explicit checks at the write operations, mirroring
the `IntegrityError` that `session.commit()` raises when a constraint is
violated; a raised commit leaves the store unchanged (rollback).

The enum `UserRole` referenced by `src/app/services/user_service.py` is not
defined in the sources (`src/app/models/user.py` has no such class); the ORM
stores the role as a plain string, and the endpoints only ever read
`user.role.value`, i.e. the same string back.  The role is therefore carried
as its string value throughout.
-/

deriving instance DecidableEq for Except

namespace Whatsub

/-- Mirror of `UserORM` (src/app/services/orm_models.py): one row of the
`users` table. -/
structure UserRow where
  user_id : Nat
  username : String
  email : String
  phone : Option String
  google_id : Option String
  role : String
  created_at : Nat
  deriving Repr, DecidableEq

/-- The `users` table plus the supply of fresh ids for `uuid.uuid4()`. -/
structure Store where
  rows : List UserRow
  nextId : Nat
  deriving Repr, DecidableEq

/-- Mirror of the pydantic `UserRead` (src/app/models/user.py) as populated
by the service layer, which additionally passes the row's role. -/
structure UserRead where
  id : Nat
  email : String
  full_name : String
  primary_phone : Option String
  role : String
  deriving Repr, DecidableEq

/-- Mirror of the pydantic `UserUpdate` (src/app/models/user.py): the
self-service update payload.  Its only fields are `email`, `full_name`,
`password` and `primary_phone`; there is no `role` field. -/
structure UserUpdate where
  email : Option String := none
  full_name : Option String := none
  password : Option String := none
  primary_phone : Option String := none
  deriving Repr, DecidableEq

/-- The row-to-response mapping used by every service method:
`UserRead(id=row.user_id, email=row.email, full_name=row.username,
primary_phone=row.phone, role=UserRole(row.role) if row.role else user)`.
The truthiness guard on `row.role` maps the empty string to `"user"`. -/
def toRead (r : UserRow) : UserRead :=
  { id := r.user_id
    email := r.email
    full_name := r.username
    primary_phone := r.phone
    role := if r.role = "" then "user" else r.role }

/-- Python `a or b` on an optional string: `None` and `""` are falsy. -/
def pyOr (a : Option String) (b : String) : String :=
  match a with
  | none => b
  | some s => if s = "" then b else s

/-- Mirror of `SqlAlchemyUserService.get_user`: primary-key lookup. -/
def get_user (s : Store) (user_id : Nat) : Option UserRead :=
  (s.rows.find? (fun r => decide (r.user_id = user_id))).map toRead

/-- Mirror of `SqlAlchemyUserService.get_user_by_google_id`: first row whose
`google_id` column equals the argument (SQL `NULL` never matches). -/
def get_user_by_google_id (s : Store) (google_id : String) : Option UserRead :=
  (s.rows.find? (fun r => decide (r.google_id = some google_id))).map toRead

/-- Mirror of `SqlAlchemyUserService.get_user_by_email`: first row whose `email`
column equals the argument. -/
def get_user_by_email (s : Store) (email : String) : Option UserRead :=
  (s.rows.find? (fun r => decide (r.email = email))).map toRead

/-- Failure raised by `session.commit()` when a UNIQUE constraint of the
`users` table is violated. -/
inductive StoreError where
  | duplicateKey
  deriving Repr, DecidableEq

/-- Python `email.split('@')[0]`: the characters before the first `'@'`
(the whole string when there is none). -/
def emailLocalPart (email : String) : String :=
  String.mk (email.data.takeWhile (fun c => c ≠ '@'))

/-- Mirror of `SqlAlchemyUserService.create_user_from_google`: inserts a fresh row
with `username = name or email.split('@')[0]`, the given email and google
id, no phone, and `role = "user"`.  The commit fails with a duplicate-key
error when another row already holds the email or the google id. -/
def create_user_from_google (s : Store) (google_id email : String)
    (name : Option String) : Except StoreError (UserRead × Store) :=
  let username := pyOr name (emailLocalPart email)
  let row : UserRow :=
    { user_id := s.nextId, username := username, email := email,
      phone := none, google_id := some google_id, role := "user",
      created_at := 0 }
  if ∃ r ∈ s.rows, r.email = email ∨ r.google_id = some google_id then
    .error .duplicateKey
  else
    .ok (toRead row, { rows := s.rows ++ [row], nextId := s.nextId + 1 })

/-- Result of `SqlAlchemyUserService.link_google_id`: the target row may be
missing (`None` returned), the commit may raise a duplicate-key error
(another row owns the google id), or the row is updated. -/
inductive LinkOutcome where
  | notFound
  | dupRaised
  | ok (u : UserRead) (s : Store)
  deriving Repr, DecidableEq

/-- Mirror of `SqlAlchemyUserService.link_google_id`: looks the row up by primary key
and sets `row.google_id = google_id` unconditionally — any previously stored
value is overwritten.  The commit fails only when a different row already
owns that google id (UNIQUE constraint). -/
def link_google_id (s : Store) (user_id : Nat) (google_id : String) :
    LinkOutcome :=
  match s.rows.find? (fun r => decide (r.user_id = user_id)) with
  | none => .notFound
  | some row =>
    if ∃ r ∈ s.rows, r.user_id ≠ user_id ∧ r.google_id = some google_id then
      .dupRaised
    else
      let row' : UserRow := { row with google_id := some google_id }
      .ok (toRead row')
        { rows := s.rows.map (fun r => if r.user_id = user_id then row' else r),
          nextId := s.nextId }

/-- Result of `SqlAlchemyUserService.update_user`: not found, commit raised
(duplicate email), or updated. -/
inductive UpdateOutcome where
  | notFound
  | dupRaised
  | ok (u : UserRead) (s : Store)
  deriving Repr, DecidableEq

/-- The field assignments of `SqlAlchemyUserService.update_user`: copies
`email`, `full_name` (to `username`) and `primary_phone` (to `phone`) onto
the row when they are not `None`; the `password` field of the payload is
never read; `user_id`, `google_id`, `role` and `created_at` are
untouched. -/
def applyUserUpdate (row : UserRow) (payload : UserUpdate) : UserRow :=
  { row with
    email := payload.email.getD row.email
    username := payload.full_name.getD row.username
    phone := payload.primary_phone.orElse (fun _ => row.phone) }

/-- Mirror of `SqlAlchemyUserService.update_user`: primary-key lookup, the field
assignments above, then commit.  The commit fails when the new email
collides with a different row (UNIQUE constraint). -/
def update_user (s : Store) (user_id : Nat) (payload : UserUpdate) :
    UpdateOutcome :=
  match s.rows.find? (fun r => decide (r.user_id = user_id)) with
  | none => .notFound
  | some row =>
    if ∃ r ∈ s.rows, r.user_id ≠ user_id ∧ r.email = (applyUserUpdate row payload).email then
      .dupRaised
    else
      .ok (toRead (applyUserUpdate row payload))
        { rows := s.rows.map (fun r =>
            if r.user_id = user_id then applyUserUpdate row payload else r),
          nextId := s.nextId }

/-- Mirror of `SqlAlchemyUserService.delete_user`: removes the row fetched by primary
key; returns whether a row was deleted. -/
def delete_user (s : Store) (user_id : Nat) : Bool × Store :=
  match s.rows.find? (fun r => decide (r.user_id = user_id)) with
  | none => (false, s)
  | some _ =>
    (true, { rows := s.rows.eraseP (fun r => decide (r.user_id = user_id)),
             nextId := s.nextId })

/-! ### Auth service (src/app/services/auth_service.py) -/

/-- The fields of `Settings` (src/app/utils/settings.py) consumed by the
auth service, with the source's defaults. -/
structure Settings where
  google_client_id : Option String := none
  jwt_secret_key : String := "your-secret-key-change-in-production"
  jwt_algorithm : String := "HS256"
  jwt_access_token_expire_minutes : Nat := 30
  deriving Repr, DecidableEq

/-- The claim set carried by a session token, as built by
`create_access_token`.  `sub` is optional: `payload.get("sub")` may be
absent (and the guard's falsiness check also treats an empty subject as
absent, which the `none` case covers). -/
structure TokenPayload where
  sub : Option Nat
  email : String
  role : String
  exp : Nat
  iat : Nat
  deriving Repr, DecidableEq

/-- A signed JWT, modelled structurally: the wire form produced by
`jwt.encode` is an injective encoding of exactly the payload, the signing
key and the algorithm, so a token is modelled as that triple and a valid
signature as key (and algorithm) agreement. -/
structure Jwt where
  payload : TokenPayload
  key : String
  alg : String
  deriving Repr, DecidableEq

/-- Mirror of `AuthService.create_access_token`: payload `{sub, email, role,
exp = now + expire_minutes * 60, iat = now}` signed with the configured
secret and algorithm.  Times are in seconds. -/
def create_access_token (cfg : Settings) (now : Nat) (user_id : Nat)
    (email : String) (role : String) : Jwt :=
  { payload :=
      { sub := some user_id, email := email, role := role,
        exp := now + cfg.jwt_access_token_expire_minutes * 60, iat := now }
    key := cfg.jwt_secret_key
    alg := cfg.jwt_algorithm }

/-- Mirror of `AuthService.verify_access_token`: `jwt.decode` succeeds when the
signature checks out against the configured secret and algorithm and the
token is not expired (PyJWT raises `ExpiredSignatureError` when
`exp <= now`); any failure is caught and mapped to `None`. -/
def verify_access_token (cfg : Settings) (now : Nat) (t : Jwt) :
    Option TokenPayload :=
  if t.key = cfg.jwt_secret_key ∧ t.alg = cfg.jwt_algorithm ∧ now < t.payload.exp then
    some t.payload
  else
    none

/-- Mirror of `AuthService.get_token_expires_in`: the configured lifetime in
seconds. -/
def get_token_expires_in (cfg : Settings) : Nat :=
  cfg.jwt_access_token_expire_minutes * 60

/-- The `idinfo` dictionary returned by Google's
`id_token.verify_oauth2_token` on success. -/
structure IdInfo where
  iss : String
  sub : String
  email : Option String := none
  name : Option String := none
  picture : Option String := none
  email_verified : Bool := false
  deriving Repr, DecidableEq

/-- The `user_info` dictionary built by `verify_google_token`. -/
structure GoogleUserInfo where
  google_id : String
  email : Option String
  name : Option String
  picture : Option String := none
  email_verified : Bool := false
  deriving Repr, DecidableEq

/-- Mirror of `AuthService.verify_google_token`.  The call out to Google
(`verify_oauth2_token`, which raises `ValueError` on a bad token) is the
`googleVerify` argument.  When `google_client_id` is not configured
(`None` or empty, by Python truthiness) the source raises
`ValueError("Google OAuth client ID is not configured")` — but that raise
sits inside the function's own `try`, whose `except ValueError` clause
returns `None`, so the misconfigured case produces `None` exactly like an
invalid token does. -/
def verify_google_token (cfg : Settings)
    (googleVerify : String → Option IdInfo) (id_token_str : String) :
    Option GoogleUserInfo :=
  if cfg.google_client_id.getD "" = "" then
    none
  else
    match googleVerify id_token_str with
    | none => none
    | some idinfo =>
      if idinfo.iss ≠ "accounts.google.com" ∧ idinfo.iss ≠ "https://accounts.google.com" then
        none
      else
        some { google_id := idinfo.sub, email := idinfo.email,
               name := idinfo.name, picture := idinfo.picture,
               email_verified := idinfo.email_verified }

/-! ### Login resolution (src/app/resources/auth.py, `google_login`) -/

/-- An `HTTPException` as raised by the endpoints: status code and
detail. -/
structure HttpError where
  status : Nat
  detail : String
  deriving Repr, DecidableEq

/-- Step 5 of `google_login` (src/app/resources/auth.py, lines 136-151):
create the account when no lookup produced one; a raised creation error is
logged and becomes HTTP 500 "Failed to create user account" — the lookups
are not retried. -/
def google_login_create (s : Store) (google_id email : String)
    (name : Option String) : Except HttpError (UserRead × Bool × Store) :=
  match create_user_from_google s google_id email name with
  | .ok (u, s2) => .ok (u, true, s2)
  | .error _ =>
    .error { status := 500, detail := "Failed to create user account" }

/-- The account-resolution portion of `google_login`
(src/app/resources/auth.py, lines 109-151), starting from the verified
Google claims: missing-email check, lookup by google id, lookup by email
with linking (a raised link error is caught by the `except` handler and the
found account kept; a `None` result from the link makes the success-path
log call evaluate `user.id` on `None` and raise `AttributeError`, which the
`except` handler re-raises uncaught by evaluating `user.id` again in its
own log call, aborting the request as a generic 500 before any creation),
then creation. -/
def resolve_or_create (info : GoogleUserInfo) (s : Store) :
    Except HttpError (UserRead × Bool × Store) :=
  if info.email.getD "" = "" then
    .error { status := 400, detail := "Email not found in Google token" }
  else
    match get_user_by_google_id s info.google_id with
    | some u => .ok (u, false, s)
    | none =>
      match get_user_by_email s (info.email.getD "") with
      | some u =>
        match link_google_id s u.id info.google_id with
        | .ok u2 s2 => .ok (u2, false, s2)
        | .dupRaised => .ok (u, false, s)
        | .notFound =>
          .error { status := 500, detail := "Internal server error" }
      | none =>
        google_login_create s info.google_id (info.email.getD "") info.name

/-- The decision logic of `google_login` (src/app/resources/auth.py, lines
109-151) as a function of the results observed from each service call, so
that interleavings where the store changes between calls (the uniqueness
races of the spec) are expressible: `byGoogleId` and `byEmail` are the two
lookups, `linkRes` is the linking call (`.error` when it raised, otherwise
the `Optional[UserRead]` it returned), `createRes` is the creation call
(`.error` when it raised).  A link call returning `None` crashes the
handler (the log call after the assignment evaluates `user.id` on `None`,
and the `except` handler re-raises the same `AttributeError` uncaught),
reaching the generic error handler as HTTP 500 and never reaching
creation; creation runs only when both lookups found nothing.  Returns the
user and `is_new_user`. -/
def google_login_flow (email : Option String)
    (byGoogleId byEmail : Option UserRead)
    (linkRes : Except Unit (Option UserRead))
    (createRes : Except Unit UserRead) :
    Except HttpError (UserRead × Bool) :=
  if email.getD "" = "" then
    .error { status := 400, detail := "Email not found in Google token" }
  else
    match byGoogleId with
    | some u => .ok (u, false)
    | none =>
      match byEmail with
      | some u =>
        match linkRes with
        | .ok (some u2) => .ok (u2, false)
        | .ok none => .error { status := 500, detail := "Internal server error" }
        | .error _ => .ok (u, false)
      | none =>
        match createRes with
        | .ok u => .ok (u, true)
        | .error _ =>
          .error { status := 500, detail := "Failed to create user account" }

/-! ### Access guard and protected endpoints
(src/app/resources/auth.py `get_current_user`,
src/app/resources/users.py) -/

/-- Python's `str.split()` with no arguments: split on runs of whitespace,
discarding empty pieces. -/
def pySplit (s : String) : List String :=
  ((s.data.splitOnP Char.isWhitespace).map String.mk).filter (fun t => t ≠ "")

/-- Python's `str.lower()` (the header scheme is ASCII, where
`Char.toLower` agrees with Python). -/
def pyToLower (s : String) : String :=
  String.mk (s.data.map Char.toLower)

/-- Mirror of `get_current_user` (src/app/resources/auth.py, lines 179-238).  The
string-level token verifier (`auth_service.verify_access_token` applied to
the token substring of the header) is the `verify` argument.  An absent or
empty header is the falsy case of `if not authorization`. -/
def get_current_user (verify : String → Option TokenPayload) (s : Store)
    (authorization : Option String) : Except HttpError UserRead :=
  if authorization.getD "" = "" then
    .error { status := 401, detail := "Authorization header missing" }
  else
    match pySplit (authorization.getD "") with
    | [scheme, token] =>
      if pyToLower scheme ≠ "bearer" then
        .error { status := 401,
                 detail := "Invalid authorization header format. Expected: Bearer <token>" }
      else
        match verify token with
        | none => .error { status := 401, detail := "Invalid or expired token" }
        | some payload =>
          match payload.sub with
          | none => .error { status := 401, detail := "Invalid token payload" }
          | some user_id =>
            match get_user s user_id with
            | none => .error { status := 401, detail := "User not found" }
            | some u => .ok u
    | _ =>
      .error { status := 401,
               detail := "Invalid authorization header format. Expected: Bearer <token>" }

/-- Mirror of the `get_user` endpoint (src/app/resources/users.py, lines 101-148): guard,
then the self-only check, then the lookup.  The HAL `_links` wrapper of the
response is omitted; the user record is returned. -/
def get_user_endpoint (verify : String → Option TokenPayload) (s : Store)
    (user_id : Nat) (authorization : Option String) :
    Except HttpError UserRead :=
  match get_current_user verify s authorization with
  | .error e => .error e
  | .ok current_user =>
    if user_id ≠ current_user.id then
      .error { status := 403,
               detail := "You can only access your own user information" }
    else
      match get_user s user_id with
      | none => .error { status := 404, detail := "User not found" }
      | some u => .ok u

/-- Mirror of the `update_user` endpoint (src/app/resources/users.py, lines 194-215):
guard, self-only check, then the service update.  An `IntegrityError`
raised by the commit is not caught by the endpoint and reaches the generic
error handler as HTTP 500. -/
def update_user_endpoint (verify : String → Option TokenPayload) (s : Store)
    (user_id : Nat) (payload : UserUpdate) (authorization : Option String) :
    Except HttpError (UserRead × Store) :=
  match get_current_user verify s authorization with
  | .error e => .error e
  | .ok current_user =>
    if user_id ≠ current_user.id then
      .error { status := 403,
               detail := "You can only update your own user information" }
    else
      match update_user s user_id payload with
      | .notFound => .error { status := 404, detail := "User not found" }
      | .dupRaised => .error { status := 500, detail := "Internal server error" }
      | .ok u s2 => .ok (u, s2)

/-- Mirror of the `delete_user` endpoint (src/app/resources/users.py, lines 261-281):
guard, self-only check, then the service delete. -/
def delete_user_endpoint (verify : String → Option TokenPayload) (s : Store)
    (user_id : Nat) (authorization : Option String) :
    Except HttpError Store :=
  match get_current_user verify s authorization with
  | .error e => .error e
  | .ok current_user =>
    if user_id ≠ current_user.id then
      .error { status := 403,
               detail := "You can only delete your own account" }
    else
      match delete_user s user_id with
      | (true, s2) => .ok s2
      | (false, _) => .error { status := 404, detail := "User not found" }

/-- Mirror of the `get_user_internal` endpoint (src/app/resources/users.py, lines 38-55):
fetches a user by id with no authentication of any kind — the handler has
no `Authorization` header and no `get_current_user` dependency. -/
def get_user_internal (s : Store) (user_id : Nat) :
    Except HttpError UserRead :=
  match get_user s user_id with
  | none => .error { status := 404, detail := "User not found" }
  | some u => .ok u

/-! ### Concrete fixtures used to instantiate the theorems -/

/-- A stored account already linked to the external identity `"g-old"`. -/
def aliceRow : UserRow :=
  { user_id := 1, username := "alice", email := "alice@x.com", phone := none,
    google_id := some "g-old", role := "user", created_at := 0 }

/-- A second stored account, owner of the external identity `"g-bob"`. -/
def bobRow : UserRow :=
  { user_id := 2, username := "bob", email := "bob@x.com", phone := none,
    google_id := some "g-bob", role := "user", created_at := 0 }

/-- A store holding the two sample accounts. -/
def sampleStore : Store := { rows := [aliceRow, bobRow], nextId := 3 }

/-- A string-level token verifier recognising three sample tokens: a valid
token for account 1, a verified token without a subject, and a verified
token whose subject account does not exist. -/
def sampleVerify : String → Option TokenPayload := fun t =>
  if t = "tok-alice" then
    some { sub := some 1, email := "alice@x.com", role := "user", exp := 100, iat := 0 }
  else if t = "tok-nosub" then
    some { sub := none, email := "x@x.com", role := "user", exp := 100, iat := 0 }
  else if t = "tok-ghost" then
    some { sub := some 99, email := "ghost@x.com", role := "user", exp := 100, iat := 0 }
  else
    none

/-- A self-service update payload touching every accepted field. -/
def sampleUpdatePayload : UserUpdate :=
  { email := some "new@x.com", full_name := some "Alice Smith",
    password := some "p@ssw0rd99", primary_phone := some "+1-555" }

/-- The row `aliceRow` after `sampleUpdatePayload` is applied: email, username and
phone change; id, google id, role and creation time do not. -/
def aliceRowUpdated : UserRow :=
  { user_id := 1, username := "Alice Smith", email := "new@x.com",
    phone := some "+1-555", google_id := some "g-old", role := "user",
    created_at := 0 }

/-- The sample store after account 1 is updated. -/
def sampleStoreUpdated : Store := { rows := [aliceRowUpdated, bobRow], nextId := 3 }

/-- A model of Google's `verify_oauth2_token` that accepts every token with
a fixed, fully valid identity. -/
def googleAcceptAll : String → Option IdInfo := fun _ =>
  some { iss := "accounts.google.com", sub := "g-123", email := some "alice@x.com",
         name := some "Alice", picture := none, email_verified := true }

/-- A model of Google's `verify_oauth2_token` that rejects every token
(raises `ValueError`). -/
def googleRejectAll : String → Option IdInfo := fun _ => none

/-! ### Generic lemmas on list lookup -/

theorem find?_append_of_none {α : Type} {p : α → Bool} {l1 l2 : List α}
    (h : l1.find? p = none) : (l1 ++ l2).find? p = l2.find? p := by
  induction l1 with
  | nil => simp
  | cons a l ih =>
    rw [List.find?_cons] at h
    cases hpa : p a with
    | true => rw [hpa] at h; exact absurd h (by simp)
    | false =>
      rw [hpa] at h
      rw [List.cons_append, List.find?_cons, hpa]
      exact ih h

/-- Lemma: `create_user_from_google` grows the table by exactly one row when it
succeeds. -/
theorem create_user_from_google_length {s : Store} {g e : String}
    {name : Option String} {u : UserRead} {s2 : Store}
    (h : create_user_from_google s g e name = .ok (u, s2)) :
    s2.rows.length = s.rows.length + 1 := by
  unfold create_user_from_google at h
  split at h
  · exact absurd h (by simp)
  · simp only [Except.ok.injEq, Prod.mk.injEq] at h
    rw [← h.2]
    simp

/-- Lemma: `google_login_create` succeeds only with `is_new_user = true` and a
table grown by exactly one row. -/
theorem google_login_create_shape {s : Store} {g e : String}
    {name : Option String} {u : UserRead} {b : Bool} {s2 : Store}
    (h : google_login_create s g e name = .ok (u, b, s2)) :
    b = true ∧ s2.rows.length = s.rows.length + 1 := by
  unfold google_login_create at h
  split at h
  case _ p heq =>
    obtain ⟨u2, s3⟩ := p
    simp only [Except.ok.injEq, Prod.mk.injEq] at h
    obtain ⟨hu, hb, hs⟩ := h
    subst hs
    exact ⟨hb.symm, create_user_from_google_length heq⟩
  case _ => exact absurd h (by simp)

/-- Claim C1: for claims with a fresh external id and a fresh email,
resolution creates exactly one new account (fresh id, the claims' email and
external id, role `user`) and returns `is_new_user = true`; a second
resolution with identical claims returns that same account with
`is_new_user = false` and an unchanged store; and `is_new_user = true` is
returned only when a row was actually created (the table grew by one). -/
theorem C1_resolution_creates_exactly_once :
    (∀ (s : Store) (g e : String) (name : Option String),
      e ≠ "" →
      (∀ r ∈ s.rows, r.google_id ≠ some g) →
      (∀ r ∈ s.rows, r.email ≠ e) →
      (∀ r ∈ s.rows, r.user_id ≠ s.nextId) →
      ∃ u s2, resolve_or_create ⟨g, some e, name, none, false⟩ s = .ok (u, true, s2)
        ∧ (∃ row, s2.rows = s.rows ++ [row] ∧ row.google_id = some g
            ∧ row.email = e ∧ row.role = "user" ∧ row.user_id = s.nextId)
        ∧ u.id = s.nextId ∧ u.email = e ∧ u.role = "user"
        ∧ (∀ r ∈ s.rows, r.user_id ≠ u.id)
        ∧ resolve_or_create ⟨g, some e, name, none, false⟩ s2 = .ok (u, false, s2))
    ∧ (∀ (info : GoogleUserInfo) (s : Store) (u : UserRead) (s2 : Store),
        resolve_or_create info s = .ok (u, true, s2) →
        s2.rows.length = s.rows.length + 1) := by
  constructor
  · intro s g e name he hg hee hfresh
    have hgnone : s.rows.find? (fun r => decide (r.google_id = some g)) = none :=
      List.find?_eq_none.mpr (by intro r hr; simpa using hg r hr)
    have henone : s.rows.find? (fun r => decide (r.email = e)) = none :=
      List.find?_eq_none.mpr (by intro r hr; simpa using hee r hr)
    set row : UserRow :=
      { user_id := s.nextId, username := pyOr name (emailLocalPart e), email := e,
        phone := none, google_id := some g, role := "user", created_at := 0 } with hrow
    set s2 : Store := { rows := s.rows ++ [row], nextId := s.nextId + 1 } with hs2
    have hno : ¬ ∃ r ∈ s.rows, r.email = e ∨ r.google_id = some g := by
      rintro ⟨r, hr, h | h⟩
      · exact hee r hr h
      · exact hg r hr h
    have hres : resolve_or_create ⟨g, some e, name, none, false⟩ s
        = .ok (toRead row, true, s2) := by
      simp [resolve_or_create, get_user_by_google_id, get_user_by_email,
        hgnone, henone, he, google_login_create, create_user_from_google, hno]
    have hfind2 : s2.rows.find? (fun r => decide (r.google_id = some g)) = some row := by
      rw [hs2]
      show (s.rows ++ [row]).find? _ = some row
      rw [find?_append_of_none hgnone]
      simp [hrow]
    have hsecond : resolve_or_create ⟨g, some e, name, none, false⟩ s2
        = .ok (toRead row, false, s2) := by
      simp [resolve_or_create, get_user_by_google_id, hfind2, he]
    refine ⟨toRead row, s2, hres, ⟨row, rfl, rfl, rfl, rfl, rfl⟩, ?_, ?_, ?_, ?_, hsecond⟩
    · simp [toRead, hrow]
    · simp [toRead, hrow]
    · simp [toRead, hrow]
    · intro r hr
      simpa [toRead, hrow] using hfresh r hr
  · intro info s u s2 h
    unfold resolve_or_create at h
    split at h
    · exact absurd h (by simp)
    · split at h
      · exact absurd h (by simp)
      · split at h
        · split at h
          · exact absurd h (by simp)
          · exact absurd h (by simp)
          · exact absurd h (by simp)
        · exact (google_login_create_shape h).2

/-- Claim C1 witness: on the empty store, the claims
`{external_id := "g-123", email := "alice@x.com"}` create account 0 with
`is_new_user = true`, and replaying them returns the same account with
`is_new_user = false`. -/
theorem C1_witness :
    ∃ u s2,
      resolve_or_create ⟨"g-123", some "alice@x.com", none, none, false⟩ ⟨[], 0⟩
        = .ok (u, true, s2)
      ∧ (∃ row, s2.rows = ([] : List UserRow) ++ [row] ∧ row.google_id = some "g-123"
          ∧ row.email = "alice@x.com" ∧ row.role = "user" ∧ row.user_id = 0)
      ∧ u.id = 0 ∧ u.email = "alice@x.com" ∧ u.role = "user"
      ∧ (∀ r ∈ ([] : List UserRow), r.user_id ≠ u.id)
      ∧ resolve_or_create ⟨"g-123", some "alice@x.com", none, none, false⟩ s2
          = .ok (u, false, s2) :=
  C1_resolution_creates_exactly_once.1 ⟨[], 0⟩ "g-123" "alice@x.com" none
    (by decide) (by simp) (by simp) (by simp)

/-- Claim C2 counterexample: with both lookups having found nothing and the
creation call failing with the store uniqueness error, `google_login`
surfaces HTTP 500 "Failed to create user account" — it does not retry the
lookups and return the concurrently created account. -/
theorem C2_counterexample :
    google_login_flow (some "alice@x.com") none none (.error ()) (.error ())
      = .error { status := 500, detail := "Failed to create user account" } := by
  decide

/-- Claim C2 amended: whenever the creation call (reached only when both
lookups found nothing) fails, `google_login` surfaces HTTP 500 "Failed to
create user account" immediately, for every result the link call could
have produced; no retry of the lookups is performed — the decision flow
consumes each lookup result exactly once. -/
theorem C2_create_failure_surfaces_500 :
    ∀ (e : String) (linkRes : Except Unit (Option UserRead)),
      e ≠ "" →
      google_login_flow (some e) none none linkRes (.error ())
        = .error { status := 500, detail := "Failed to create user account" } := by
  intro e linkRes he
  simp [google_login_flow, he]

/-- Claim C2 witness: the creation-failure path at a concrete input. -/
theorem C2_witness :
    google_login_flow (some "bob@x.com") none none (.error ()) (.error ())
      = .error { status := 500, detail := "Failed to create user account" } :=
  C2_create_failure_surfaces_500 "bob@x.com" (.error ()) (by decide)

/-- Claim C3 counterexample: account 1 already has
`google_id = some "g-old"`; linking it to the different id `"g-new"` (owned
by nobody else) succeeds and overwrites the stored value — the claim says
such an attempt must fail and never overwrite. -/
theorem C3_counterexample :
    link_google_id { rows := [aliceRow], nextId := 2 } 1 "g-new"
      = .ok { id := 1, email := "alice@x.com", full_name := "alice",
              primary_phone := none, role := "user" }
          { rows := [{ user_id := 1, username := "alice", email := "alice@x.com",
                       phone := none, google_id := some "g-new", role := "user",
                       created_at := 0 }],
            nextId := 2 }
    ∧ aliceRow.google_id = some "g-old" := by
  constructor <;> decide

/-- Claim C3 amended: `link_google_id` fails only when the target account
is missing or when a *different* account already owns the google id (the
UNIQUE constraint at commit); otherwise it sets the target's `google_id`
unconditionally, overwriting any existing different value. -/
theorem C3_link_unconditional_overwrite :
    (∀ (s : Store) (uid : Nat) (g : String),
      s.rows.find? (fun r => decide (r.user_id = uid)) = none →
      link_google_id s uid g = .notFound)
    ∧ (∀ (s : Store) (uid : Nat) (g : String) (row : UserRow),
      s.rows.find? (fun r => decide (r.user_id = uid)) = some row →
      ((∃ r ∈ s.rows, r.user_id ≠ uid ∧ r.google_id = some g) →
        link_google_id s uid g = .dupRaised)
      ∧ (¬ (∃ r ∈ s.rows, r.user_id ≠ uid ∧ r.google_id = some g) →
        link_google_id s uid g
          = .ok (toRead { row with google_id := some g })
              { rows := s.rows.map (fun r =>
                  if r.user_id = uid then { row with google_id := some g } else r),
                nextId := s.nextId })) := by
  constructor
  · intro s uid g hnone
    simp [link_google_id, hnone]
  · intro s uid g row hfind
    constructor
    · intro hdup
      simp [link_google_id, hfind, hdup]
    · intro hno
      simp [link_google_id, hfind, hno]

/-- Claim C3 witness: linking account 1 to `"g-bob"` (owned by account 2)
raises the duplicate-key error; linking it to the unowned `"g-new"`
succeeds and overwrites its previous `"g-old"`. -/
theorem C3_witness :
    (link_google_id sampleStore 1 "g-bob" = .dupRaised)
    ∧ (link_google_id sampleStore 1 "g-new"
        = .ok (toRead { aliceRow with google_id := some "g-new" })
            { rows := sampleStore.rows.map (fun r =>
                if r.user_id = 1 then { aliceRow with google_id := some "g-new" } else r),
              nextId := sampleStore.nextId }) :=
  ⟨(C3_link_unconditional_overwrite.2 sampleStore 1 "g-bob" aliceRow (by decide)).1
      (by refine ⟨bobRow, by decide, by decide, by decide⟩),
   (C3_link_unconditional_overwrite.2 sampleStore 1 "g-new" aliceRow (by decide)).2
      (by decide)⟩

/-- Claim C4: when the external id matches no account but the email matches
an existing one, resolution returns that very account (same id, the claims'
email) with `is_new_user = false`, linking its `google_id` to the claims'
external id without creating any row; and when the link call raises, the
failure is absorbed and the account found by email is still returned with
`is_new_user = false` (second conjunct, stated on the decision flow where a
raised link is expressible). -/
theorem C4_email_match_links_and_returns_existing :
    (∀ (s : Store) (g e : String) (name : Option String) (row : UserRow),
      e ≠ "" →
      (∀ r ∈ s.rows, r.google_id ≠ some g) →
      s.rows.find? (fun r => decide (r.email = e)) = some row →
      s.rows.find? (fun r => decide (r.user_id = row.user_id)) = some row →
      ∃ u s2, resolve_or_create ⟨g, some e, name, none, false⟩ s = .ok (u, false, s2)
        ∧ u.id = row.user_id ∧ u.email = e
        ∧ s2.rows.length = s.rows.length
        ∧ (∃ r2 ∈ s2.rows, r2.user_id = row.user_id ∧ r2.google_id = some g))
    ∧ (∀ (e : String) (u : UserRead) (createRes : Except Unit UserRead),
      e ≠ "" →
      google_login_flow (some e) none (some u) (.error ()) createRes = .ok (u, false)) := by
  constructor
  · intro s g e name row he hg hemail hid
    have hgnone : s.rows.find? (fun r => decide (r.google_id = some g)) = none :=
      List.find?_eq_none.mpr (by intro r hr; simpa using hg r hr)
    have hrowmem : row ∈ s.rows := List.mem_of_find?_eq_some hemail
    have hrowe : row.email = e := by
      have := List.find?_some hemail
      simpa using this
    have hno : ¬ ∃ r ∈ s.rows, r.user_id ≠ row.user_id ∧ r.google_id = some g := by
      rintro ⟨r, hr, -, hgid⟩
      exact hg r hr hgid
    set row2 : UserRow := { row with google_id := some g } with hrow2
    set s2 : Store :=
      { rows := s.rows.map (fun r => if r.user_id = row.user_id then row2 else r),
        nextId := s.nextId } with hs2
    have hres : resolve_or_create ⟨g, some e, name, none, false⟩ s
        = .ok (toRead row2, false, s2) := by
      simp [resolve_or_create, get_user_by_google_id, get_user_by_email,
        hgnone, hemail, he, link_google_id, toRead, hid, hno]
    refine ⟨toRead row2, s2, hres, by simp [toRead, hrow2],
      by simp [toRead, hrow2, hrowe], by simp [hs2], ?_⟩
    refine ⟨row2, ?_, by simp [hrow2], by simp [hrow2]⟩
    rw [hs2]
    have hmem := List.mem_map_of_mem
      (fun r => if r.user_id = row.user_id then row2 else r) hrowmem
    simpa using hmem
  · intro e u createRes he
    simp [google_login_flow, he]

/-- Claim C4 witness: claims `{external_id := "g-new", email :=
"alice@x.com"}` against the sample store resolve to account 1 with
`is_new_user = false` and link it to `"g-new"`; and at the flow level a
raised link error still yields account 1 with `is_new_user = false`. -/
theorem C4_witness :
    (∃ u s2,
      resolve_or_create ⟨"g-new", some "alice@x.com", none, none, false⟩ sampleStore
        = .ok (u, false, s2)
      ∧ u.id = aliceRow.user_id ∧ u.email = "alice@x.com"
      ∧ s2.rows.length = sampleStore.rows.length
      ∧ (∃ r2 ∈ s2.rows, r2.user_id = aliceRow.user_id ∧ r2.google_id = some "g-new"))
    ∧ google_login_flow (some "alice@x.com") none (some (toRead aliceRow)) (.error ())
        (.ok (toRead bobRow))
        = .ok (toRead aliceRow, false) :=
  ⟨C4_email_match_links_and_returns_existing.1 sampleStore "g-new" "alice@x.com" none aliceRow
      (by decide) (by decide) (by decide) (by decide),
   C4_email_match_links_and_returns_existing.2 "alice@x.com" (toRead aliceRow)
      (.ok (toRead bobRow)) (by decide)⟩

/-- Claim C5: once the guard has authenticated account `A`, every
account-scoped endpoint taking a target id rejects a target distinct from
`A.id` with its distinct 403 Forbidden outcome — the result is this
constant for every store in which the guard authenticates `A`, so it is
identical whether or not the target account exists — and with the target
equal to `A.id` each endpoint proceeds to its operation body. -/
theorem C5_self_only_enforcement :
    ∀ (verify : String → Option TokenPayload) (s : Store) (authz : Option String)
      (A : UserRead) (target : Nat) (p : UserUpdate),
      get_current_user verify s authz = .ok A →
      (target ≠ A.id →
        get_user_endpoint verify s target authz
          = .error { status := 403, detail := "You can only access your own user information" }
        ∧ update_user_endpoint verify s target p authz
          = .error { status := 403, detail := "You can only update your own user information" }
        ∧ delete_user_endpoint verify s target authz
          = .error { status := 403, detail := "You can only delete your own account" })
      ∧ (get_user_endpoint verify s A.id authz
          = match get_user s A.id with
            | none => .error { status := 404, detail := "User not found" }
            | some u => .ok u)
      ∧ (update_user_endpoint verify s A.id p authz
          = match update_user s A.id p with
            | .notFound => .error { status := 404, detail := "User not found" }
            | .dupRaised => .error { status := 500, detail := "Internal server error" }
            | .ok u s2 => .ok (u, s2))
      ∧ (delete_user_endpoint verify s A.id authz
          = match delete_user s A.id with
            | (true, s2) => .ok s2
            | (false, _) => .error { status := 404, detail := "User not found" }) := by
  intro verify s authz A target p hauth
  refine ⟨fun hne => ⟨?_, ?_, ?_⟩, ?_, ?_, ?_⟩
  · simp [get_user_endpoint, hauth, hne]
  · simp [update_user_endpoint, hauth, hne]
  · simp [delete_user_endpoint, hauth, hne]
  · simp [get_user_endpoint, hauth]
  · simp [update_user_endpoint, hauth]
  · simp [delete_user_endpoint, hauth]

/-- Claim C5 witness: with account 1 authenticated, targeting account 2 is
rejected by all three endpoints with 403, and targeting account 1 itself
succeeds. -/
theorem C5_witness :
    (get_user_endpoint sampleVerify sampleStore 2 (some "Bearer tok-alice")
      = .error { status := 403, detail := "You can only access your own user information" })
    ∧ (update_user_endpoint sampleVerify sampleStore 2 {} (some "Bearer tok-alice")
      = .error { status := 403, detail := "You can only update your own user information" })
    ∧ (delete_user_endpoint sampleVerify sampleStore 2 (some "Bearer tok-alice")
      = .error { status := 403, detail := "You can only delete your own account" })
    ∧ (get_user_endpoint sampleVerify sampleStore 1 (some "Bearer tok-alice")
      = .ok (toRead aliceRow)) :=
  ⟨((C5_self_only_enforcement sampleVerify sampleStore (some "Bearer tok-alice")
      (toRead aliceRow) 2 {} (by decide)).1 (by decide)).1,
   ((C5_self_only_enforcement sampleVerify sampleStore (some "Bearer tok-alice")
      (toRead aliceRow) 2 {} (by decide)).1 (by decide)).2.1,
   ((C5_self_only_enforcement sampleVerify sampleStore (some "Bearer tok-alice")
      (toRead aliceRow) 2 {} (by decide)).1 (by decide)).2.2,
   (C5_self_only_enforcement sampleVerify sampleStore (some "Bearer tok-alice")
      (toRead aliceRow) 1 {} (by decide)).2.1⟩


/-- Claim C6: the authentication guard rejects, in order: an absent (or
empty, falsy) header; a header not splitting into exactly two
whitespace-separated tokens or whose scheme is not case-insensitively
"bearer"; a token the verifier rejects; a verified payload without a
subject; and a verified token whose subject account is not in the store
(an orphaned token is never authenticated); otherwise it returns the
resolved account. -/
theorem C6_guard_rejection_cases :
    ∀ (verify : String → Option TokenPayload) (s : Store),
      (get_current_user verify s none
        = .error { status := 401, detail := "Authorization header missing" })
      ∧ (get_current_user verify s (some "")
        = .error { status := 401, detail := "Authorization header missing" })
      ∧ (∀ h : String, h ≠ "" → (pySplit h).length ≠ 2 →
          get_current_user verify s (some h) = .error { status := 401, detail := "Invalid authorization header format. Expected: Bearer <token>" })
      ∧ (∀ (h scheme token : String), h ≠ "" → pySplit h = [scheme, token] →
          pyToLower scheme ≠ "bearer" →
          get_current_user verify s (some h) = .error { status := 401, detail := "Invalid authorization header format. Expected: Bearer <token>" })
      ∧ (∀ (h scheme token : String), h ≠ "" → pySplit h = [scheme, token] →
          pyToLower scheme = "bearer" → verify token = none →
          get_current_user verify s (some h)
            = .error { status := 401, detail := "Invalid or expired token" })
      ∧ (∀ (h scheme token : String) (payload : TokenPayload), h ≠ "" →
          pySplit h = [scheme, token] → pyToLower scheme = "bearer" →
          verify token = some payload → payload.sub = none →
          get_current_user verify s (some h)
            = .error { status := 401, detail := "Invalid token payload" })
      ∧ (∀ (h scheme token : String) (payload : TokenPayload) (uid : Nat), h ≠ "" →
          pySplit h = [scheme, token] → pyToLower scheme = "bearer" →
          verify token = some payload → payload.sub = some uid →
          get_user s uid = none →
          get_current_user verify s (some h)
            = .error { status := 401, detail := "User not found" })
      ∧ (∀ (h scheme token : String) (payload : TokenPayload) (uid : Nat) (u : UserRead),
          h ≠ "" →
          pySplit h = [scheme, token] → pyToLower scheme = "bearer" →
          verify token = some payload → payload.sub = some uid →
          get_user s uid = some u →
          get_current_user verify s (some h) = .ok u) := by
  intro verify s
  refine ⟨by simp [get_current_user], by simp [get_current_user], ?_, ?_, ?_, ?_, ?_, ?_⟩
  · intro h hne hlen
    simp only [get_current_user, Option.getD_some, if_neg hne]
    match hsp : pySplit h with
    | [] => simp
    | [a] => simp
    | [a, b] => rw [hsp] at hlen; simp at hlen
    | a :: b :: c :: rest => simp
  · intro h scheme token hne hsp hsch
    simp [get_current_user, hne, hsp, hsch]
  · intro h scheme token hne hsp hsch hv
    simp [get_current_user, hne, hsp, hsch, hv]
  · intro h scheme token payload hne hsp hsch hv hsub
    simp [get_current_user, hne, hsp, hsch, hv, hsub]
  · intro h scheme token payload uid hne hsp hsch hv hsub hu
    simp [get_current_user, hne, hsp, hsch, hv, hsub, hu]
  · intro h scheme token payload uid u hne hsp hsch hv hsub hu
    simp [get_current_user, hne, hsp, hsch, hv, hsub, hu]

/-- Claim C6 witness: each guard outcome at a concrete header against the
sample store, including the case-insensitive scheme on the success path. -/
theorem C6_witness :
    (get_current_user sampleVerify sampleStore none
      = .error { status := 401, detail := "Authorization header missing" })
    ∧ (get_current_user sampleVerify sampleStore (some "Bearer") = .error { status := 401, detail := "Invalid authorization header format. Expected: Bearer <token>" })
    ∧ (get_current_user sampleVerify sampleStore (some "Basic tok-alice") = .error { status := 401, detail := "Invalid authorization header format. Expected: Bearer <token>" })
    ∧ (get_current_user sampleVerify sampleStore (some "Bearer tok-bad")
      = .error { status := 401, detail := "Invalid or expired token" })
    ∧ (get_current_user sampleVerify sampleStore (some "Bearer tok-nosub")
      = .error { status := 401, detail := "Invalid token payload" })
    ∧ (get_current_user sampleVerify sampleStore (some "Bearer tok-ghost")
      = .error { status := 401, detail := "User not found" })
    ∧ (get_current_user sampleVerify sampleStore (some "BEARER tok-alice")
      = .ok (toRead aliceRow)) :=
  ⟨(C6_guard_rejection_cases sampleVerify sampleStore).1,
   (C6_guard_rejection_cases sampleVerify sampleStore).2.2.1 "Bearer" (by decide) (by decide),
   (C6_guard_rejection_cases sampleVerify sampleStore).2.2.2.1 "Basic tok-alice" "Basic"
      "tok-alice" (by decide) (by decide) (by decide),
   (C6_guard_rejection_cases sampleVerify sampleStore).2.2.2.2.1 "Bearer tok-bad" "Bearer"
      "tok-bad" (by decide) (by decide) (by decide) (by decide),
   (C6_guard_rejection_cases sampleVerify sampleStore).2.2.2.2.2.1 "Bearer tok-nosub" "Bearer"
      "tok-nosub" ⟨none, "x@x.com", "user", 100, 0⟩ (by decide) (by decide) (by decide)
      (by decide) (by decide),
   (C6_guard_rejection_cases sampleVerify sampleStore).2.2.2.2.2.2.1 "Bearer tok-ghost" "Bearer"
      "tok-ghost" ⟨some 99, "ghost@x.com", "user", 100, 0⟩ 99 (by decide) (by decide) (by decide)
      (by decide) (by decide) (by decide),
   (C6_guard_rejection_cases sampleVerify sampleStore).2.2.2.2.2.2.2 "BEARER tok-alice" "BEARER"
      "tok-alice" ⟨some 1, "alice@x.com", "user", 100, 0⟩ 1 (toRead aliceRow) (by decide)
      (by decide) (by decide) (by decide) (by decide) (by decide)⟩

/-- Claim C7 (code bug evidence): with the Google client id unset (or
empty), `verify_google_token` returns `None` for an otherwise fully valid
token — exactly the outcome of an invalid token under a configured client
id, which `google_login` maps to the same per-request 400 — because the
source raises its configuration `ValueError` inside its own
`except ValueError: return None`; the healthy configured path (last
conjunct) is the only one that differs. -/
theorem C7_misconfiguration_collapses_to_invalid_token :
    verify_google_token { google_client_id := none } googleAcceptAll "good-token" = none
    ∧ verify_google_token { google_client_id := some "" } googleAcceptAll "good-token" = none
    ∧ verify_google_token { google_client_id := some "client-id" } googleRejectAll "bad-token" = none
    ∧ verify_google_token { google_client_id := some "client-id" } googleAcceptAll "good-token"
        = some { google_id := "g-123", email := some "alice@x.com", name := some "Alice",
                 picture := none, email_verified := true } :=
  ⟨by decide, by decide, by decide, by decide⟩

/-- Claim C8: verifying a session token issued for
`(account_id, email, role)` before `expires_in_seconds` have elapsed
succeeds and returns the subject, email and role unchanged. -/
theorem C8_token_roundtrip :
    ∀ (cfg : Settings) (t_issue t_now : Nat) (uid : Nat) (email role : String),
      t_now < t_issue + get_token_expires_in cfg →
      verify_access_token cfg t_now (create_access_token cfg t_issue uid email role)
        = some { sub := some uid, email := email, role := role,
                 exp := t_issue + cfg.jwt_access_token_expire_minutes * 60, iat := t_issue } := by
  intro cfg t0 t1 uid email role h
  rw [get_token_expires_in] at h
  simp [verify_access_token, create_access_token, h]

/-- Claim C8 witness: a token issued at time 0 for account 7 verifies at
time 100 with the issued subject, email and role. -/
theorem C8_witness :
    verify_access_token {} 100 (create_access_token {} 0 7 "alice@x.com" "user")
      = some { sub := some 7, email := "alice@x.com", role := "user",
               exp := 1800, iat := 0 } :=
  C8_token_roundtrip {} 0 100 7 "alice@x.com" "user" (by decide)

/-- Claim C9: a successful self-service update never mutates any row's
`role`, `user_id`, `google_id` or `created_at` (rows other than the target
are untouched entirely), and the returned record carries the target's
stored role; the `UserUpdate` payload (defined above) has no role field. -/
theorem C9_update_never_touches_role_or_identity :
    ∀ (s : Store) (uid : Nat) (p : UserUpdate) (u : UserRead) (s2 : Store),
      update_user s uid p = .ok u s2 →
      s2.rows.length = s.rows.length
      ∧ (∀ r2 ∈ s2.rows, ∃ r ∈ s.rows,
          r2.user_id = r.user_id ∧ r2.role = r.role ∧ r2.google_id = r.google_id
          ∧ r2.created_at = r.created_at)
      ∧ (∀ r ∈ s.rows, r.user_id ≠ uid → r ∈ s2.rows)
      ∧ (∃ row ∈ s.rows, row.user_id = uid ∧ u.id = row.user_id
          ∧ u.role = (toRead row).role) := by
  intro s uid p u s2 h
  unfold update_user at h
  split at h
  · exact absurd h (by simp)
  case _ row hfind =>
    split at h
    · exact absurd h (by simp)
    case _ hno =>
      simp only [UpdateOutcome.ok.injEq] at h
      obtain ⟨hu, hs⟩ := h
      have hrowmem : row ∈ s.rows := List.mem_of_find?_eq_some hfind
      have hrowid : row.user_id = uid := by
        have := List.find?_some hfind
        simpa using this
      subst hs
      refine ⟨by simp, ?_, ?_, ⟨row, hrowmem, hrowid, ?_, ?_⟩⟩
      · intro r2 hr2
        simp only [List.mem_map] at hr2
        obtain ⟨r, hr, hfr⟩ := hr2
        by_cases hc : r.user_id = uid
        · rw [if_pos hc] at hfr
          refine ⟨row, hrowmem, ?_, ?_, ?_, ?_⟩ <;> rw [← hfr] <;> simp [applyUserUpdate]
        · rw [if_neg hc] at hfr
          exact ⟨r, hr, by rw [← hfr], by rw [← hfr], by rw [← hfr], by rw [← hfr]⟩
      · intro r hr hne
        have := List.mem_map_of_mem
          (fun r => if r.user_id = uid then applyUserUpdate row p else r) hr
        simpa [hne] using this
      · rw [← hu]
        simp [toRead, applyUserUpdate]
      · rw [← hu]
        simp [toRead, applyUserUpdate]


/-- Claim C9 witness: updating account 1 with a payload touching every
accepted field changes only email, name and phone. -/
theorem C9_witness :
    update_user sampleStore 1 sampleUpdatePayload
      = .ok (toRead aliceRowUpdated) sampleStoreUpdated
    ∧ (sampleStoreUpdated.rows.length = sampleStore.rows.length
      ∧ (∀ r2 ∈ sampleStoreUpdated.rows, ∃ r ∈ sampleStore.rows,
          r2.user_id = r.user_id ∧ r2.role = r.role ∧ r2.google_id = r.google_id
          ∧ r2.created_at = r.created_at)
      ∧ (∀ r ∈ sampleStore.rows, r.user_id ≠ 1 → r ∈ sampleStoreUpdated.rows)
      ∧ (∃ row ∈ sampleStore.rows, row.user_id = 1
          ∧ (toRead aliceRowUpdated).id = row.user_id
          ∧ (toRead aliceRowUpdated).role = (toRead row).role)) :=
  ⟨by decide,
   C9_update_never_touches_role_or_identity sampleStore 1 sampleUpdatePayload
     (toRead aliceRowUpdated) sampleStoreUpdated (by decide)⟩

/-- Claim C10: the internal get-user endpoint takes no credentials at all
and returns any existing account's record given only the id, failing only
with 404 when the id matches nothing — while the guarded read rejects the
same request with 401 when no header is presented. -/
theorem C10_internal_get_has_no_auth :
    ∀ (s : Store) (uid : Nat),
      (∀ u, get_user s uid = some u → get_user_internal s uid = .ok u)
      ∧ (get_user s uid = none →
          get_user_internal s uid = .error { status := 404, detail := "User not found" })
      ∧ (∀ verify : String → Option TokenPayload,
          get_user_endpoint verify s uid none
            = .error { status := 401, detail := "Authorization header missing" }) := by
  intro s uid
  refine ⟨?_, ?_, ?_⟩
  · intro u hu
    simp [get_user_internal, hu]
  · intro hu
    simp [get_user_internal, hu]
  · intro verify
    simp [get_user_endpoint, get_current_user]

/-- Claim C10 witness: the internal endpoint returns account 1 with no
credentials, 404s on an unknown id, and the guarded endpoint 401s. -/
theorem C10_witness :
    (get_user_internal sampleStore 1 = .ok (toRead aliceRow))
    ∧ (get_user_internal sampleStore 99
        = .error { status := 404, detail := "User not found" })
    ∧ (get_user_endpoint sampleVerify sampleStore 1 none
        = .error { status := 401, detail := "Authorization header missing" }) :=
  ⟨(C10_internal_get_has_no_auth sampleStore 1).1 (toRead aliceRow) (by decide),
   (C10_internal_get_has_no_auth sampleStore 99).2.1 (by decide),
   (C10_internal_get_has_no_auth sampleStore 1).2.2 sampleVerify⟩
end Whatsub
